import Mathlib

/-!
# TGBotVibeCoding: the durable conversation store and the dialogue handlers

A shallow embedding of `main.go`.

* Go's `int64` (user identifiers) and `int` (`ConversationState`, on a 64-bit platform) are
  the integers of the 64-bit signed range, `GoInt64`.
* A Go `map[int64]T` is a finite map `Finmap` keyed by `GoInt64`; the zero value of `T` is
  returned by a read of an absent key, as in Go.
* The tables of a `Store` are allocated (as `NewPersistence` allocates them) and every
  entry of `Data` points to a record (as `UpdateData`, the only place that creates one,
  guarantees), so a record is stored by value.
* Text is `String`: the Go strings that hold valid UTF-8, which is what a Telegram message
  delivers and what `encoding/json` writes and reads back unchanged.
* The persisted file is kept as the JSON document it holds (`Document`): an object with the
  members `states`, `data` and `context`, each an object whose member names are the decimal
  texts of the user identifiers.  `encoding/json` prints and parses that document; documents
  that do not follow this schema are outside the model.
* The mutex `Mu` orders concurrent callers and has no effect on a sequential run; it is
  not part of the state.
-/

namespace TGBot

/-! ## Data model -/

/-- Values of Go's `int64`. -/
abbrev GoInt64 := { n : Int // -9223372036854775808 ≤ n ∧ n ≤ 9223372036854775807 }

/-- UserData of `main.go`: the facts collected about one user. -/
structure UserData where
  Name : String
  Age : String
  Bio : String
  Children : String
  deriving DecidableEq, Repr

/-- ConversationState of `main.go`: a Go `int`. -/
abbrev ConversationState := GoInt64

/-- StateChoosing, `iota` = 0. -/
def StateChoosing : ConversationState := ⟨0, by decide⟩

/-- StateTypingChoice, `iota` = 1. -/
def StateTypingChoice : ConversationState := ⟨1, by decide⟩

/-- StateTypingReply, `iota` = 2. -/
def StateTypingReply : ConversationState := ⟨2, by decide⟩

/-- Store of `main.go`: the three tables. -/
structure Store where
  State : Finmap (fun _ : GoInt64 => ConversationState)
  Data : Finmap (fun _ : GoInt64 => UserData)
  Ctx : Finmap (fun _ : GoInt64 => String)

/-- PersistenceHandler of `main.go` (without the mutex). -/
structure PersistenceHandler where
  FilePath : String
  Store : Store

/-! ## The persisted file -/

/-- The JSON document of a store file: the members of the objects `states`, `data` and
`context`, in the order in which they stand in the file. -/
structure Document where
  states : List (String × ConversationState)
  data : List (String × UserData)
  context : List (String × String)

/-- What `os.ReadFile` and `json.Unmarshal` find at a path. -/
inductive FileContent where
  /-- There is no file: `os.IsNotExist`. -/
  | missing
  /-- The file cannot be read for another reason. -/
  | unreadable
  /-- The bytes of the file are not syntactically valid JSON. -/
  | invalid
  /-- The file holds a document. -/
  | document (d : Document)

/-- The files the program works with, and whether `os.WriteFile` succeeds on a path. -/
structure FileSystem where
  content : String → FileContent
  writable : String → Bool

/-! ## `strconv`: decimal text of the map keys -/

/-- Decimal text of a natural number, most significant digit first. -/
def formatUint (n : Nat) : List Char :=
  if n = 0 then ['0'] else ((Nat.digits 10 n).reverse).map Nat.digitChar

/-- Go's `strconv.FormatInt(i, 10)`, which `encoding/json` uses for an integer map key. -/
def FormatInt (i : GoInt64) : String :=
  if i.val < 0 then String.mk ('-' :: formatUint i.val.natAbs)
  else String.mk (formatUint i.val.natAbs)

/-- Value of one decimal digit. -/
def digitValue (c : Char) : Option Nat :=
  if 48 ≤ c.toNat ∧ c.toNat ≤ 57 then some (c.toNat - 48) else none

/-- Reads the digits `cs` after the digits already read as `acc`. -/
def parseDigits : List Char → Nat → Option Nat
  | [], acc => some acc
  | c :: cs, acc =>
    match digitValue c with
    | some d => parseDigits cs (acc * 10 + d)
    | none => none

/-- A non-empty run of decimal digits. -/
def parseUint : List Char → Option Nat
  | [] => none
  | c :: cs => parseDigits (c :: cs) 0

/-- The integer `v` as an `int64`, when it is in range. -/
def toInt64 (v : Int) : Option GoInt64 :=
  if h : -9223372036854775808 ≤ v ∧ v ≤ 9223372036854775807 then some ⟨v, h⟩ else none

/-- Go's `strconv.ParseInt(s, 10, 64)`, which `encoding/json` uses to read an integer map
key: an optional sign, then digits; `none` for a syntax or a range error. -/
def ParseInt (s : String) : Option GoInt64 :=
  match s.data with
  | [] => none
  | c :: ds =>
    if c = '+' then (parseUint ds).bind (fun n => toInt64 (n : Int))
    else if c = '-' then (parseUint ds).bind (fun n => toInt64 (-(n : Int)))
    else (parseUint (c :: ds)).bind (fun n => toInt64 (n : Int))

/-! ## `encoding/json` on a `Store` -/

/-- The keys of a table in the order in which `encoding/json` writes them: sorted by their
text. -/
def sortedKeys {V : Type} (m : Finmap (fun _ : GoInt64 => V)) : List GoInt64 :=
  (m.keys.sort (fun a b => a ≤ b)).insertionSort (fun a b => FormatInt a ≤ FormatInt b)

/-- The JSON object written for a table. -/
def marshalMap {V : Type} (m : Finmap (fun _ : GoInt64 => V)) : List (String × V) :=
  (sortedKeys m).filterMap (fun k => (m.lookup k).map (fun v => (FormatInt k, v)))

/-- The document `json.MarshalIndent(p.Store, "", "  ")` writes. -/
def marshalStore (s : Store) : Document :=
  { states := marshalMap s.State, data := marshalMap s.Data, context := marshalMap s.Ctx }

/-- Decoding a JSON object into an allocated map: each member whose name reads as an
`int64` is stored under that key, the others are skipped. -/
def unmarshalMap {V : Type} (members : List (String × V))
    (m : Finmap (fun _ : GoInt64 => V)) : Finmap (fun _ : GoInt64 => V) :=
  members.foldl
    (fun acc kv =>
      match ParseInt kv.1 with
      | some k => acc.insert k kv.2
      | none => acc)
    m

/-- The effect of `json.Unmarshal(file, &p.Store)` for a file holding the document `d`. -/
def unmarshalStore (d : Document) (s : Store) : Store :=
  { State := unmarshalMap d.states s.State
    Data := unmarshalMap d.data s.Data
    Ctx := unmarshalMap d.context s.Ctx }

/-! ## Persistence logic -/

/-- Go's `os.WriteFile` of the marshalled document `d` to `path`: on success the file
holds `d`; a write that is refused reports an error (`false`) and leaves the file as it
was. -/
def WriteFile (fs : FileSystem) (path : String) (d : Document) : FileSystem × Bool :=
  if fs.writable path then
    ({ fs with content := Function.update fs.content path (FileContent.document d) }, true)
  else
    (fs, false)

/-- Save of `main.go`: marshals the whole store and writes it to `FilePath`.  The second
component says whether the returned `error` is nil. -/
def Save (p : PersistenceHandler) (fs : FileSystem) : FileSystem × Bool :=
  WriteFile fs p.FilePath (marshalStore p.Store)

/-- Load of `main.go`: on a read error the store is left as it is; otherwise the file is
unmarshalled into the store (a syntax error leaves the store as it is). -/
def Load (p : PersistenceHandler) (fs : FileSystem) : PersistenceHandler :=
  match fs.content p.FilePath with
  | FileContent.missing => p
  | FileContent.unreadable => p
  | FileContent.invalid => p
  | FileContent.document d => { p with Store := unmarshalStore d p.Store }

/-- NewPersistence of `main.go`: three empty tables, then `Load`. -/
def NewPersistence (path : String) (fs : FileSystem) : PersistenceHandler :=
  Load { FilePath := path, Store := { State := ∅, Data := ∅, Ctx := ∅ } } fs

/-- GetState of `main.go`: `p.Store.State[userID]`, the zero value when absent. -/
def GetState (p : PersistenceHandler) (userID : GoInt64) : ConversationState :=
  match p.Store.State.lookup userID with
  | some st => st
  | none => ⟨0, by decide⟩

/-- SetState of `main.go`: stores the state, then saves (the error of `Save` is dropped). -/
def SetState (p : PersistenceHandler) (fs : FileSystem) (userID : GoInt64)
    (state : ConversationState) : PersistenceHandler × FileSystem :=
  let p1 : PersistenceHandler :=
    { p with Store := { p.Store with State := p.Store.State.insert userID state } }
  (p1, (Save p1 fs).1)

/-- UpdateData of `main.go`: creates the record when absent, assigns the field named by
`key` (no field for another key), then saves. -/
def UpdateData (p : PersistenceHandler) (fs : FileSystem) (userID : GoInt64)
    (key value : String) : PersistenceHandler × FileSystem :=
  let d0 : UserData :=
    match p.Store.Data.lookup userID with
    | some d => d
    | none => { Name := "", Age := "", Bio := "", Children := "" }
  let d1 : UserData :=
    if key = "Name" then { d0 with Name := value }
    else if key = "Age" then { d0 with Age := value }
    else if key = "Bio" then { d0 with Bio := value }
    else if key = "Children" then { d0 with Children := value }
    else d0
  let p1 : PersistenceHandler :=
    { p with Store := { p.Store with Data := p.Store.Data.insert userID d1 } }
  (p1, (Save p1 fs).1)

/-- SetContext of `main.go`: stores the context, then saves. -/
def SetContext (p : PersistenceHandler) (fs : FileSystem) (userID : GoInt64)
    (val : String) : PersistenceHandler × FileSystem :=
  let p1 : PersistenceHandler :=
    { p with Store := { p.Store with Ctx := p.Store.Ctx.insert userID val } }
  (p1, (Save p1 fs).1)

/-- GetContext of `main.go`: `p.Store.Ctx[userID]`, the empty string when absent. -/
def GetContext (p : PersistenceHandler) (userID : GoInt64) : String :=
  match p.Store.Ctx.lookup userID with
  | some c => c
  | none => ""

/-- GetDataString of `main.go`. -/
def GetDataString (p : PersistenceHandler) (userID : GoInt64) : String :=
  match p.Store.Data.lookup userID with
  | some d => "Name: " ++ d.Name ++ "\nAge: " ++ d.Age ++ "\nBio: " ++ d.Bio
      ++ "\nChildren: " ++ d.Children
  | none => "Нет данных."

/-! ## Bot logic -/

/-- What is passed to `c.Send` after the text. -/
inductive SendOption where
  /-- Nothing. -/
  | none
  /-- The reply keyboard `menu` with the buttons Name, Age, Bio, Children, Done. -/
  | menu
  /-- The flag `tele.RemoveKeyboard`. -/
  | RemoveKeyboard
  deriving DecidableEq, Repr

/-- One call of `c.Send`. -/
structure Reply where
  text : String
  option : SendOption
  deriving DecidableEq, Repr

/-- The handler of `/start`. -/
def onStart (p : PersistenceHandler) (fs : FileSystem) (userID : GoInt64) :
    PersistenceHandler × FileSystem × Reply :=
  let r := SetState p fs userID StateChoosing
  (r.1, r.2,
    { text := "Привет! Я помогу сохранить факты о тебе. Что ты хочешь рассказать?"
      option := SendOption.menu })

/-- The handler of `/show_data`. -/
def onShowData (p : PersistenceHandler) (fs : FileSystem) (userID : GoInt64) :
    PersistenceHandler × FileSystem × Reply :=
  (p, fs, { text := "Вот что я знаю:\n" ++ GetDataString p userID, option := SendOption.none })

/-- The handler of `tele.OnText`. -/
def onText (p : PersistenceHandler) (fs : FileSystem) (userID : GoInt64) (text : String) :
    PersistenceHandler × FileSystem × Reply :=
  let currentState := GetState p userID
  if currentState = StateChoosing then
    if text = "Name" ∨ text = "Age" ∨ text = "Bio" ∨ text = "Children" then
      let r1 := SetContext p fs userID text
      let r2 := SetState r1.1 r1.2 userID StateTypingReply
      (r2.1, r2.2,
        { text := "Хорошо, введи свои данные для " ++ text ++ ":", option := SendOption.none })
    else if text = "Done" then
      (p, fs,
        { text := "Я запомнил:\n" ++ GetDataString p userID ++ "\nДо встречи!"
          option := SendOption.RemoveKeyboard })
    else
      (p, fs, { text := "Пожалуйста, выбери кнопку из меню.", option := SendOption.menu })
  else if currentState = StateTypingReply then
    let category := GetContext p userID
    let r1 := UpdateData p fs userID category text
    let r2 := SetState r1.1 r1.2 userID StateChoosing
    (r2.1, r2.2, { text := "Записал " ++ category ++ "! Что еще?", option := SendOption.menu })
  else
    (p, fs, { text := "Напиши /start, чтобы начать диалог.", option := SendOption.none })

/-! ## Sequences of store operations -/

/-- A user identifier (the one of `TestPersistence`). -/
def sampleUser : GoInt64 := ⟨12345, by decide⟩

/-- A handler on `data.json` whose three tables are empty. -/
def emptyHandler : PersistenceHandler :=
  { FilePath := "data.json", Store := { State := ∅, Data := ∅, Ctx := ∅ } }

/-- A handler in which `sampleUser` has the record (Ivan, 30, -, -). -/
def sampleHandler : PersistenceHandler :=
  { FilePath := "data.json"
    Store :=
      { State := ∅
        Data := (∅ : Finmap (fun _ : GoInt64 => UserData)).insert sampleUser
          { Name := "Ivan", Age := "30", Bio := "", Children := "" }
        Ctx := ∅ } }

/-- A file system without files, on which every write succeeds. -/
def sampleFiles : FileSystem :=
  { content := fun _ => FileContent.missing, writable := fun _ => true }

/-- A handler in which `sampleUser` has pressed the button Name and is asked for the value. -/
def awaitingHandler : PersistenceHandler :=
  { FilePath := "data.json"
    Store :=
      { State := (∅ : Finmap (fun _ : GoInt64 => ConversationState)).insert sampleUser
          StateTypingReply
        Data := ∅
        Ctx := (∅ : Finmap (fun _ : GoInt64 => String)).insert sampleUser "Name" } }

/-- A file system without files, on which every write is refused. -/
def readOnlyFiles : FileSystem :=
  { content := fun _ => FileContent.missing, writable := fun _ => false }

/-- A file system whose files all hold bytes that are not JSON. -/
def garbageFiles : FileSystem :=
  { content := fun _ => FileContent.invalid, writable := fun _ => true }

/-- A second user identifier. -/
def otherUser : GoInt64 := ⟨777, by decide⟩

/-! ## Events -/

/-- One update delivered to the bot: the command `/start`, the command `/show_data`, or
a text message. -/
inductive Event where
  /-- The command `/start` of a user. -/
  | start (userID : GoInt64)
  /-- The command `/show_data` of a user. -/
  | showData (userID : GoInt64)
  /-- A text message of a user. -/
  | text (userID : GoInt64) (text : String)

/-- The sender of an event, `c.Sender().ID`. -/
def Event.user : Event → GoInt64
  | Event.start u => u
  | Event.showData u => u
  | Event.text u _ => u

/-- The handler registered for an event, applied to it. -/
def handle (p : PersistenceHandler) (fs : FileSystem) :
    Event → PersistenceHandler × FileSystem × Reply
  | Event.start u => onStart p fs u
  | Event.showData u => onShowData p fs u
  | Event.text u t => onText p fs u t

/-- Handles the events of `evs` one after the other. -/
def runEvents (w : PersistenceHandler × FileSystem) (evs : List Event) :
    PersistenceHandler × FileSystem :=
  evs.foldl (fun x e => ((handle x.1 x.2 e).1, (handle x.1 x.2 e).2.1)) w

/-- The text is one of the four field names. -/
def IsField (t : String) : Prop :=
  t = "Name" ∨ t = "Age" ∨ t = "Bio" ∨ t = "Children"

/-- What the handlers maintain from the empty store on: every context is a field name,
every stored state is `StateChoosing` or `StateTypingReply`, and a user in
`StateTypingReply` has a context. -/
def DialogueInv (p : PersistenceHandler) : Prop :=
  (∀ (u : GoInt64) (c : String), p.Store.Ctx.lookup u = some c → IsField c) ∧
  (∀ (u : GoInt64) (st : ConversationState), p.Store.State.lookup u = some st →
    st = StateChoosing ∨ st = StateTypingReply) ∧
  (∀ u : GoInt64, p.Store.State.lookup u = some StateTypingReply →
    ∃ c : String, p.Store.Ctx.lookup u = some c)

/-! ## The mutex, for one goroutine

`held` says whether the write lock of `Mu` is held.  While no other goroutine runs, a
`Lock` on a held mutex never returns and an `Unlock` of a free mutex is a fatal error;
both are the outcome `none`. -/

theorem digitValue_digitChar (d : Nat) (h : d < 10) : digitValue (Nat.digitChar d) = some d := by
  interval_cases d <;> rfl

theorem digitChar_ne_sign (d : Nat) (h : d < 10) :
    Nat.digitChar d ≠ '+' ∧ Nat.digitChar d ≠ '-' := by
  interval_cases d <;> decide

theorem parseDigits_append (xs ys : List Char) (acc : Nat) :
    parseDigits (xs ++ ys) acc = (parseDigits xs acc).bind (fun a => parseDigits ys a) := by
  induction xs generalizing acc with
  | nil => rfl
  | cons c cs ih =>
    simp only [List.cons_append, parseDigits]
    cases digitValue c with
    | none => rfl
    | some d => exact ih _

theorem parseDigits_digits (L : List Nat) (hL : ∀ d ∈ L, d < 10) (acc : Nat) :
    parseDigits (L.reverse.map Nat.digitChar) acc
      = some (acc * 10 ^ L.length + Nat.ofDigits 10 L) := by
  induction L generalizing acc with
  | nil => simp [parseDigits]
  | cons d L ih =>
    have hd : d < 10 := hL d (List.mem_cons_self _ _)
    have hL2 : ∀ e ∈ L, e < 10 := fun e he => hL e (List.mem_cons_of_mem _ he)
    rw [List.reverse_cons, List.map_append, parseDigits_append, ih hL2]
    simp only [List.map_cons, List.map_nil, Option.some_bind, parseDigits,
      digitValue_digitChar d hd, List.length_cons, Nat.ofDigits_cons]
    congr 1
    ring

theorem parseUint_formatUint (n : Nat) : parseUint (formatUint n) = some n := by
  unfold formatUint
  by_cases h0 : n = 0
  · subst h0; rfl
  · rw [if_neg h0]
    have hne : Nat.digits 10 n ≠ [] := Nat.digits_ne_nil_iff_ne_zero.mpr h0
    have hp := parseDigits_digits (Nat.digits 10 n)
      (fun d hd => Nat.digits_lt_base (by decide) hd) 0
    rw [Nat.ofDigits_digits] at hp
    simp only [Nat.zero_mul, Nat.zero_add] at hp
    cases hl : (Nat.digits 10 n).reverse.map Nat.digitChar with
    | nil => simp at hl; exact absurd hl hne
    | cons c cs => rw [hl] at hp; exact hp

theorem formatUint_head (n : Nat) :
    ∃ c cs, formatUint n = c :: cs ∧ c ≠ '+' ∧ c ≠ '-' := by
  unfold formatUint
  by_cases h0 : n = 0
  · subst h0; exact ⟨'0', [], rfl, by decide, by decide⟩
  · rw [if_neg h0]
    have hne : (Nat.digits 10 n).reverse ≠ [] := by
      simpa using Nat.digits_ne_nil_iff_ne_zero.mpr h0
    cases hl : (Nat.digits 10 n).reverse with
    | nil => exact absurd hl hne
    | cons d ds =>
      have hd : d < 10 := by
        have : d ∈ Nat.digits 10 n := by
          rw [← List.mem_reverse, hl]; exact List.mem_cons_self _ _
        exact Nat.digits_lt_base (by decide) this
      exact ⟨Nat.digitChar d, ds.map Nat.digitChar, rfl, digitChar_ne_sign d hd⟩

theorem toInt64_val (k : GoInt64) : toInt64 k.val = some k := by
  unfold toInt64
  rw [dif_pos k.property]

theorem parseInt_formatInt (k : GoInt64) : ParseInt (FormatInt k) = some k := by
  unfold FormatInt ParseInt
  by_cases hneg : k.val < 0
  · rw [if_pos hneg]
    have hv : -((k.val.natAbs : Nat) : Int) = k.val := by omega
    simp only [if_neg (show ¬('-' = '+') by decide), if_true, parseUint_formatUint,
      Option.some_bind, hv, toInt64_val]
  · rw [if_neg hneg]
    obtain ⟨c, cs, hc, h1, h2⟩ := formatUint_head k.val.natAbs
    have hp := parseUint_formatUint k.val.natAbs
    rw [hc] at hp
    have hv : ((k.val.natAbs : Nat) : Int) = k.val := by omega
    simp only [hc, if_neg h1, if_neg h2, hp, Option.some_bind, hv, toInt64_val]

theorem formatInt_injective {a b : GoInt64} (h : FormatInt a = FormatInt b) : a = b := by
  have := parseInt_formatInt a
  rw [h, parseInt_formatInt b] at this
  exact (Option.some.inj this).symm

/-! ## Unmarshalling what was marshalled -/

theorem mem_sortedKeys {V : Type} (m : Finmap (fun _ : GoInt64 => V)) (k : GoInt64) :
    k ∈ sortedKeys m ↔ k ∈ m := by
  unfold sortedKeys
  rw [(List.perm_insertionSort _ _).mem_iff, Finset.mem_sort, Finmap.mem_keys]

theorem mem_marshalMap {V : Type} (m : Finmap (fun _ : GoInt64 => V)) (s : String) (v : V) :
    (s, v) ∈ marshalMap m ↔ ∃ k, m.lookup k = some v ∧ s = FormatInt k := by
  unfold marshalMap
  rw [List.mem_filterMap]
  constructor
  · rintro ⟨k, _, hk⟩
    cases hl : m.lookup k with
    | none => rw [hl] at hk; simp at hk
    | some w =>
      rw [hl] at hk
      simp only [Option.map_some', Option.some.injEq, Prod.mk.injEq] at hk
      exact ⟨k, hk.2 ▸ hl, hk.1.symm⟩
  · rintro ⟨k, hk, rfl⟩
    refine ⟨k, ?_, by simp [hk]⟩
    rw [mem_sortedKeys, ← Finmap.lookup_isSome, hk]
    rfl

theorem unmarshalMap_cons {V : Type} (k : GoInt64) (v : V) (L : List (String × V))
    (acc : Finmap (fun _ : GoInt64 => V)) :
    unmarshalMap ((FormatInt k, v) :: L) acc = unmarshalMap L (acc.insert k v) := by
  simp only [unmarshalMap, List.foldl_cons, parseInt_formatInt]

theorem lookup_unmarshalMap {V : Type} (m : Finmap (fun _ : GoInt64 => V)) (k : GoInt64)
    (L : List (String × V))
    (hL : ∀ kv ∈ L, ∃ j, kv.1 = FormatInt j ∧ m.lookup j = some kv.2)
    (acc : Finmap (fun _ : GoInt64 => V)) :
    ((∃ v, (FormatInt k, v) ∈ L) → (unmarshalMap L acc).lookup k = m.lookup k) ∧
    ((∀ v, (FormatInt k, v) ∉ L) → (unmarshalMap L acc).lookup k = acc.lookup k) := by
  induction L generalizing acc with
  | nil =>
    constructor
    · rintro ⟨v, hv⟩; simp at hv
    · intro _; rfl
  | cons kv L ih =>
    obtain ⟨j, hj, hjv⟩ := hL kv (List.mem_cons_self _ _)
    have hL2 : ∀ kv ∈ L, ∃ j, kv.1 = FormatInt j ∧ m.lookup j = some kv.2 :=
      fun x hx => hL x (List.mem_cons_of_mem _ hx)
    have hkv : kv = (FormatInt j, kv.2) := by rw [← hj]
    rw [hkv, unmarshalMap_cons]
    have ih2 := ih hL2 (acc.insert j kv.2)
    constructor
    · rintro ⟨v, hv⟩
      by_cases hex : ∃ w, (FormatInt k, w) ∈ L
      · exact ih2.1 hex
      · have hno : ∀ w, (FormatInt k, w) ∉ L := fun w hw => hex ⟨w, hw⟩
        rw [ih2.2 hno]
        rcases List.mem_cons.mp hv with h | h
        · have hkj : k = j := formatInt_injective (congrArg Prod.fst h)
          subst hkj
          rw [Finmap.lookup_insert, hjv]
        · exact absurd h (hno v)
    · intro hno
      have hne : k ≠ j := by
        intro hkj
        subst hkj
        exact hno kv.2 (List.mem_cons_self _ _)
      have hno2 : ∀ w, (FormatInt k, w) ∉ L := fun w hw => hno w (List.mem_cons_of_mem _ hw)
      rw [ih2.2 hno2, Finmap.lookup_insert_of_ne _ hne]

theorem unmarshalMap_marshalMap {V : Type} (m : Finmap (fun _ : GoInt64 => V)) :
    unmarshalMap (marshalMap m) ∅ = m := by
  apply Finmap.ext_lookup
  intro k
  have hL : ∀ kv ∈ marshalMap m, ∃ j, kv.1 = FormatInt j ∧ m.lookup j = some kv.2 := by
    rintro ⟨s, v⟩ hkv
    obtain ⟨j, hj, hs⟩ := (mem_marshalMap m s v).mp hkv
    exact ⟨j, hs, hj⟩
  have key := lookup_unmarshalMap m k (marshalMap m) hL ∅
  cases hk : m.lookup k with
  | some v =>
    rw [← hk]
    exact key.1 ⟨v, (mem_marshalMap m _ v).mpr ⟨k, hk, rfl⟩⟩
  | none =>
    rw [key.2, Finmap.lookup_empty]
    intro v hv
    obtain ⟨j, hj, hs⟩ := (mem_marshalMap m _ v).mp hv
    have hkj : k = j := formatInt_injective hs
    subst hkj
    rw [hk] at hj
    exact Option.noConfusion hj

theorem unmarshalStore_marshalStore (s : Store) :
    unmarshalStore (marshalStore s) { State := ∅, Data := ∅, Ctx := ∅ } = s := by
  cases s
  simp only [unmarshalStore, marshalStore, unmarshalMap_marshalMap]

/-! ## The file after a sequence of store operations -/

theorem newPersistence_after_save (p : PersistenceHandler) (fs : FileSystem)
    (hw : fs.writable p.FilePath = true) :
    NewPersistence p.FilePath (Save p fs).1 = p ∧
    (Save p fs).1.writable = fs.writable := by
  cases p with
  | mk path store =>
    simp only [Save, WriteFile] at *
    rw [if_pos hw]
    simp only [NewPersistence, Load, Function.update_same, unmarshalStore_marshalStore]
    exact ⟨trivial, trivial⟩

theorem summary_ne_sentinel (a b c d : String) :
    "Name: " ++ a ++ "\nAge: " ++ b ++ "\nBio: " ++ c ++ "\nChildren: " ++ d ≠ "Нет данных." := by
  intro h
  have h2 := congrArg (fun s => s.data.head?) h
  simp [String.data_append] at h2

theorem getState_of_lookup {p : PersistenceHandler} {u : GoInt64} {st : ConversationState}
    (h : p.Store.State.lookup u = some st) : GetState p u = st := by
  simp [GetState, h]

theorem setState_state (p : PersistenceHandler) (fs : FileSystem) (u : GoInt64)
    (st : ConversationState) : GetState (SetState p fs u st).1 u = st := by
  simp [GetState, SetState, Finmap.lookup_insert]

theorem setState_ctx (p : PersistenceHandler) (fs : FileSystem) (u : GoInt64)
    (st : ConversationState) : (SetState p fs u st).1.Store.Ctx = p.Store.Ctx := rfl

theorem setState_data (p : PersistenceHandler) (fs : FileSystem) (u : GoInt64)
    (st : ConversationState) : (SetState p fs u st).1.Store.Data = p.Store.Data := rfl

theorem setContext_ctx (p : PersistenceHandler) (fs : FileSystem) (u : GoInt64)
    (val : String) : GetContext (SetContext p fs u val).1 u = val := by
  simp [GetContext, SetContext, Finmap.lookup_insert]

theorem setContext_data (p : PersistenceHandler) (fs : FileSystem) (u : GoInt64)
    (val : String) : (SetContext p fs u val).1.Store.Data = p.Store.Data := rfl

theorem updateData_ctx (p : PersistenceHandler) (fs : FileSystem) (u : GoInt64)
    (k v : String) : (UpdateData p fs u k v).1.Store.Ctx = p.Store.Ctx := rfl

theorem getContext_congr {p q : PersistenceHandler} (h : q.Store.Ctx = p.Store.Ctx)
    (u : GoInt64) : GetContext q u = GetContext p u := by
  simp [GetContext, h]

theorem getDataString_congr {p q : PersistenceHandler} (h : q.Store.Data = p.Store.Data)
    (u : GoInt64) : GetDataString q u = GetDataString p u := by
  simp [GetDataString, h]

theorem updateData_lookup (p : PersistenceHandler) (fs : FileSystem) (u : GoInt64)
    (v : String) (old : UserData)
    (h : old = (p.Store.Data.lookup u).getD { Name := "", Age := "", Bio := "", Children := "" }) :
    (UpdateData p fs u "Name" v).1.Store.Data.lookup u
        = some { Name := v, Age := old.Age, Bio := old.Bio, Children := old.Children } ∧
    (UpdateData p fs u "Age" v).1.Store.Data.lookup u
        = some { Name := old.Name, Age := v, Bio := old.Bio, Children := old.Children } ∧
    (UpdateData p fs u "Bio" v).1.Store.Data.lookup u
        = some { Name := old.Name, Age := old.Age, Bio := v, Children := old.Children } ∧
    (UpdateData p fs u "Children" v).1.Store.Data.lookup u
        = some { Name := old.Name, Age := old.Age, Bio := old.Bio, Children := v } := by
  subst h
  refine ⟨?_, ?_, ?_, ?_⟩ <;>
  · simp only [UpdateData, Finmap.lookup_insert]
    cases h : p.Store.Data.lookup u <;> simp [h]

theorem getDataString_of_lookup {p : PersistenceHandler} {u : GoInt64} {d : UserData}
    (h : p.Store.Data.lookup u = some d) :
    GetDataString p u
      = "Name: " ++ d.Name ++ "\nAge: " ++ d.Age ++ "\nBio: " ++ d.Bio
          ++ "\nChildren: " ++ d.Children := by
  simp [GetDataString, h]

/-! ## The branches of the text handler -/

theorem onText_field (p : PersistenceHandler) (fs : FileSystem) (u : GoInt64) (t : String)
    (hs : GetState p u = StateChoosing)
    (ht : t = "Name" ∨ t = "Age" ∨ t = "Bio" ∨ t = "Children") :
    onText p fs u t
      = ((SetState (SetContext p fs u t).1 (SetContext p fs u t).2 u StateTypingReply).1,
         (SetState (SetContext p fs u t).1 (SetContext p fs u t).2 u StateTypingReply).2,
         { text := "Хорошо, введи свои данные для " ++ t ++ ":", option := SendOption.none }) := by
  simp only [onText, hs, ht, if_true]

theorem onText_done (p : PersistenceHandler) (fs : FileSystem) (u : GoInt64)
    (hs : GetState p u = StateChoosing) :
    onText p fs u "Done"
      = (p, fs, { text := "Я запомнил:\n" ++ GetDataString p u ++ "\nДо встречи!"
                  option := SendOption.RemoveKeyboard }) := by
  have h1 : ¬("Done" = "Name" ∨ "Done" = "Age" ∨ "Done" = "Bio" ∨ "Done" = "Children") := by
    decide
  simp only [onText, hs, h1, if_true, if_false]

theorem onText_other (p : PersistenceHandler) (fs : FileSystem) (u : GoInt64) (t : String)
    (hs : GetState p u = StateChoosing)
    (h1 : t ≠ "Name") (h2 : t ≠ "Age") (h3 : t ≠ "Bio") (h4 : t ≠ "Children")
    (h5 : t ≠ "Done") :
    onText p fs u t
      = (p, fs, { text := "Пожалуйста, выбери кнопку из меню.", option := SendOption.menu }) := by
  simp only [onText, hs, h1, h2, h3, h4, h5, if_true, if_false, or_self]

theorem onText_reply (p : PersistenceHandler) (fs : FileSystem) (u : GoInt64) (t : String)
    (hs : GetState p u = StateTypingReply) :
    onText p fs u t
      = ((SetState (UpdateData p fs u (GetContext p u) t).1
            (UpdateData p fs u (GetContext p u) t).2 u StateChoosing).1,
         (SetState (UpdateData p fs u (GetContext p u) t).1
            (UpdateData p fs u (GetContext p u) t).2 u StateChoosing).2,
         { text := "Записал " ++ GetContext p u ++ "! Что еще?", option := SendOption.menu }) := by
  have hne : StateTypingReply ≠ StateChoosing := by decide
  simp only [onText, hs, hne, if_true, if_false]

/-! ## The store operations -/

/-- C2 (default materialization): a user without an entry in the state table is reported
in `StateChoosing`, a user without an entry in the context table has the empty context;
both reads are total functions, so neither can fail. -/
theorem default_materialization (p : PersistenceHandler) (u : GoInt64) :
    (p.Store.State.lookup u = none → GetState p u = StateChoosing) ∧
    (p.Store.Ctx.lookup u = none → GetContext p u = "") := by
  constructor
  · intro h; simp [GetState, h, StateChoosing]
  · intro h; simp [GetContext, h]

/-- Witness of C2 on the store with three empty tables. -/
theorem default_materialization_witness :
    GetState emptyHandler sampleUser = StateChoosing ∧ GetContext emptyHandler sampleUser = "" :=
  ⟨(default_materialization emptyHandler sampleUser).1 (by decide),
   (default_materialization emptyHandler sampleUser).2 (by decide)⟩

/-- C3 (field isolation): after `UpdateData(u, k, v)` with `k` one of the four field names,
the record of `u` is its record before the call (the empty record when there was none)
with field `k` replaced by `v`: field `k` is `v` and the other three fields are as before. -/
theorem field_isolation (p : PersistenceHandler) (fs : FileSystem) (u : GoInt64) (v : String) :
    let old := (p.Store.Data.lookup u).getD { Name := "", Age := "", Bio := "", Children := "" }
    (UpdateData p fs u "Name" v).1.Store.Data.lookup u
        = some { Name := v, Age := old.Age, Bio := old.Bio, Children := old.Children } ∧
    (UpdateData p fs u "Age" v).1.Store.Data.lookup u
        = some { Name := old.Name, Age := v, Bio := old.Bio, Children := old.Children } ∧
    (UpdateData p fs u "Bio" v).1.Store.Data.lookup u
        = some { Name := old.Name, Age := old.Age, Bio := v, Children := old.Children } ∧
    (UpdateData p fs u "Children" v).1.Store.Data.lookup u
        = some { Name := old.Name, Age := old.Age, Bio := old.Bio, Children := v } := by
  intro old
  exact updateData_lookup p fs u v old rfl

/-- C4 (summary rendering): `GetDataString` is the sentinel exactly for a user without a
record; for a user with the record `d` it is the four lines built from the fields of `d`
in the order Name, Age, Bio, Children, and that text is not the sentinel. -/
theorem summary_rendering (p : PersistenceHandler) (u : GoInt64) :
    (p.Store.Data.lookup u = none → GetDataString p u = "Нет данных.") ∧
    (∀ d : UserData, p.Store.Data.lookup u = some d →
      GetDataString p u
        = "Name: " ++ d.Name ++ "\nAge: " ++ d.Age ++ "\nBio: " ++ d.Bio
            ++ "\nChildren: " ++ d.Children ∧
      GetDataString p u ≠ "Нет данных.") := by
  constructor
  · intro h; simp [GetDataString, h]
  · intro d h
    have e := getDataString_of_lookup h
    exact ⟨e, e ▸ summary_ne_sentinel _ _ _ _⟩

/-- Witness of C4: a user with the record (Ivan, 30, -, -) and a user without a record. -/
theorem summary_rendering_witness :
    GetDataString sampleHandler sampleUser
      = "Name: " ++ "Ivan" ++ "\nAge: " ++ "30" ++ "\nBio: " ++ "" ++ "\nChildren: " ++ "" ∧
    GetDataString sampleHandler sampleUser ≠ "Нет данных." ∧
    GetDataString emptyHandler sampleUser = "Нет данных." :=
  ⟨((summary_rendering sampleHandler sampleUser).2
      { Name := "Ivan", Age := "30", Bio := "", Children := "" } (by decide)).1,
   ((summary_rendering sampleHandler sampleUser).2
      { Name := "Ivan", Age := "30", Bio := "", Children := "" } (by decide)).2,
   (summary_rendering emptyHandler sampleUser).1 (by decide)⟩

/-- C5 (summary after a single write): for a user without a record, after one
`UpdateData(u, k, v)` with `k` one of the four field names the summary is the four-line
text showing `v` in line `k` and nothing in the other three lines, and it is not the
sentinel. -/
theorem summary_after_single_write (p : PersistenceHandler) (fs : FileSystem) (u : GoInt64)
    (v : String) (h : p.Store.Data.lookup u = none) :
    (GetDataString (UpdateData p fs u "Name" v).1 u
        = "Name: " ++ v ++ "\nAge: " ++ "" ++ "\nBio: " ++ "" ++ "\nChildren: " ++ "" ∧
      GetDataString (UpdateData p fs u "Name" v).1 u ≠ "Нет данных.") ∧
    (GetDataString (UpdateData p fs u "Age" v).1 u
        = "Name: " ++ "" ++ "\nAge: " ++ v ++ "\nBio: " ++ "" ++ "\nChildren: " ++ "" ∧
      GetDataString (UpdateData p fs u "Age" v).1 u ≠ "Нет данных.") ∧
    (GetDataString (UpdateData p fs u "Bio" v).1 u
        = "Name: " ++ "" ++ "\nAge: " ++ "" ++ "\nBio: " ++ v ++ "\nChildren: " ++ "" ∧
      GetDataString (UpdateData p fs u "Bio" v).1 u ≠ "Нет данных.") ∧
    (GetDataString (UpdateData p fs u "Children" v).1 u
        = "Name: " ++ "" ++ "\nAge: " ++ "" ++ "\nBio: " ++ "" ++ "\nChildren: " ++ v ∧
      GetDataString (UpdateData p fs u "Children" v).1 u ≠ "Нет данных.") := by
  have key : ∀ (k : String) (d : UserData),
      (UpdateData p fs u k v).1.Store.Data.lookup u = some d →
      GetDataString (UpdateData p fs u k v).1 u
        = "Name: " ++ d.Name ++ "\nAge: " ++ d.Age ++ "\nBio: " ++ d.Bio
            ++ "\nChildren: " ++ d.Children ∧
      GetDataString (UpdateData p fs u k v).1 u ≠ "Нет данных." := by
    intro k d hk
    have e := getDataString_of_lookup hk
    exact ⟨e, e ▸ summary_ne_sentinel _ _ _ _⟩
  have iso := updateData_lookup p fs u v _ rfl
  simp only [h, Option.getD_none] at iso
  exact ⟨key "Name" { Name := v, Age := "", Bio := "", Children := "" } iso.1,
    key "Age" { Name := "", Age := v, Bio := "", Children := "" } iso.2.1,
    key "Bio" { Name := "", Age := "", Bio := v, Children := "" } iso.2.2.1,
    key "Children" { Name := "", Age := "", Bio := "", Children := v } iso.2.2.2⟩

/-- Witness of C5: the first write for a user of the empty store. -/
theorem summary_after_single_write_witness :
    emptyHandler.Store.Data.lookup sampleUser = none ∧
    GetDataString (UpdateData emptyHandler sampleFiles sampleUser "Age" "30").1 sampleUser
      = "Name: " ++ "" ++ "\nAge: " ++ "30" ++ "\nBio: " ++ "" ++ "\nChildren: " ++ "" :=
  ⟨by decide,
   (summary_after_single_write emptyHandler sampleFiles sampleUser "30" (by decide)).2.1.1⟩

/-! ## The text handler -/

/-- C6 (field selection): when `u` is in `StateChoosing` (an absent entry included) and the
text is one of the four field names, the text handler leaves `u` in `StateTypingReply` with
the text as context, does not touch the data table, and prompts for the value. -/
theorem field_selection_transition (p : PersistenceHandler) (fs : FileSystem) (u : GoInt64)
    (t : String) (hs : GetState p u = StateChoosing)
    (ht : t = "Name" ∨ t = "Age" ∨ t = "Bio" ∨ t = "Children") :
    GetState (onText p fs u t).1 u = StateTypingReply ∧
    GetContext (onText p fs u t).1 u = t ∧
    (onText p fs u t).1.Store.Data = p.Store.Data ∧
    (onText p fs u t).2.2
      = { text := "Хорошо, введи свои данные для " ++ t ++ ":", option := SendOption.none } := by
  have e := onText_field p fs u t hs ht
  rw [e]
  refine ⟨setState_state (SetContext p fs u t).1 (SetContext p fs u t).2 u StateTypingReply,
    ?_, rfl, rfl⟩
  exact (getContext_congr
    (setState_ctx (SetContext p fs u t).1 (SetContext p fs u t).2 u StateTypingReply) u).trans
      (setContext_ctx p fs u t)

/-- Witness of C6: a user never seen before presses the button Age. -/
theorem field_selection_transition_witness :
    GetState emptyHandler sampleUser = StateChoosing ∧
    GetState (onText emptyHandler sampleFiles sampleUser "Age").1 sampleUser = StateTypingReply ∧
    GetContext (onText emptyHandler sampleFiles sampleUser "Age").1 sampleUser = "Age" :=
  ⟨by decide,
   (field_selection_transition emptyHandler sampleFiles sampleUser "Age" (by decide)
      (by decide)).1,
   (field_selection_transition emptyHandler sampleFiles sampleUser "Age" (by decide)
      (by decide)).2.1⟩

/-- C7 (reply transition): when `u` is in `StateTypingReply` with a context `f` that is one
of the four field names, the text handler, for any text `t`, stores `t` in field `f` of the
record of `u` (the other fields as before, empty when there was no record), puts `u` back
in `StateChoosing`, keeps the context `f`, and confirms with the menu shown. -/
theorem reply_transition (p : PersistenceHandler) (fs : FileSystem) (u : GoInt64)
    (f t : String) (hs : GetState p u = StateTypingReply) (hc : GetContext p u = f)
    (hf : f = "Name" ∨ f = "Age" ∨ f = "Bio" ∨ f = "Children") :
    let old := (p.Store.Data.lookup u).getD { Name := "", Age := "", Bio := "", Children := "" }
    (f = "Name" → (onText p fs u t).1.Store.Data.lookup u
        = some { Name := t, Age := old.Age, Bio := old.Bio, Children := old.Children }) ∧
    (f = "Age" → (onText p fs u t).1.Store.Data.lookup u
        = some { Name := old.Name, Age := t, Bio := old.Bio, Children := old.Children }) ∧
    (f = "Bio" → (onText p fs u t).1.Store.Data.lookup u
        = some { Name := old.Name, Age := old.Age, Bio := t, Children := old.Children }) ∧
    (f = "Children" → (onText p fs u t).1.Store.Data.lookup u
        = some { Name := old.Name, Age := old.Age, Bio := old.Bio, Children := t }) ∧
    GetState (onText p fs u t).1 u = StateChoosing ∧
    GetContext (onText p fs u t).1 u = f ∧
    (onText p fs u t).2.2
      = { text := "Записал " ++ f ++ "! Что еще?", option := SendOption.menu } := by
  intro old
  have e := onText_reply p fs u t hs
  rw [hc] at e
  have iso := updateData_lookup p fs u t old rfl
  rw [e]
  refine ⟨?_, ?_, ?_, ?_,
    setState_state (UpdateData p fs u f t).1 (UpdateData p fs u f t).2 u StateChoosing, ?_, rfl⟩
  · intro h; subst h; exact iso.1
  · intro h; subst h; exact iso.2.1
  · intro h; subst h; exact iso.2.2.1
  · intro h; subst h; exact iso.2.2.2
  · exact (getContext_congr
      (setState_ctx (UpdateData p fs u f t).1 (UpdateData p fs u f t).2 u StateChoosing) u).trans
        ((getContext_congr (updateData_ctx p fs u f t) u).trans hc)

/-- Witness of C7: the user answers "Done" while the value of Name is awaited; the text is
stored as the name. -/
theorem reply_transition_witness :
    GetState awaitingHandler sampleUser = StateTypingReply ∧
    GetContext awaitingHandler sampleUser = "Name" ∧
    (onText awaitingHandler sampleFiles sampleUser "Done").1.Store.Data.lookup sampleUser
      = some { Name := "Done", Age := "", Bio := "", Children := "" } ∧
    GetState (onText awaitingHandler sampleFiles sampleUser "Done").1 sampleUser
      = StateChoosing :=
  ⟨by decide, by decide,
   (reply_transition awaitingHandler sampleFiles sampleUser "Name" "Done" (by decide)
      (by decide) (by decide)).1 rfl,
   (reply_transition awaitingHandler sampleFiles sampleUser "Name" "Done" (by decide)
      (by decide) (by decide)).2.2.2.2.1⟩

/-- C8 (Done in Choosing): when `u` is in `StateChoosing`, the text "Done" changes neither
the store nor the file, and the reply is the summary of `u` between the two fixed lines,
sent with the remove-keyboard flag. -/
theorem done_in_choosing (p : PersistenceHandler) (fs : FileSystem) (u : GoInt64)
    (hs : GetState p u = StateChoosing) :
    (onText p fs u "Done").1 = p ∧
    (onText p fs u "Done").2.1 = fs ∧
    GetState (onText p fs u "Done").1 u = StateChoosing ∧
    (onText p fs u "Done").2.2
      = { text := "Я запомнил:\n" ++ GetDataString p u ++ "\nДо встречи!"
          option := SendOption.RemoveKeyboard } := by
  have e := onText_done p fs u hs
  rw [e]
  exact ⟨rfl, rfl, hs, rfl⟩

/-- Witness of C8: "Done" from a user with a record. -/
theorem done_in_choosing_witness :
    GetState sampleHandler sampleUser = StateChoosing ∧
    (onText sampleHandler sampleFiles sampleUser "Done").1 = sampleHandler ∧
    (onText sampleHandler sampleFiles sampleUser "Done").2.2
      = { text := "Я запомнил:\n" ++ GetDataString sampleHandler sampleUser ++ "\nДо встречи!"
          option := SendOption.RemoveKeyboard } :=
  ⟨by decide,
   (done_in_choosing sampleHandler sampleFiles sampleUser (by decide)).1,
   (done_in_choosing sampleHandler sampleFiles sampleUser (by decide)).2.2.2⟩

/-- C9 (fallback in Choosing): when `u` is in `StateChoosing` (an absent entry included) and
the text is none of Name, Age, Bio, Children, Done, the text handler changes neither the
store nor the file and answers with the use-the-menu prompt, the menu shown. -/
theorem fallback_in_choosing (p : PersistenceHandler) (fs : FileSystem) (u : GoInt64)
    (t : String) (hs : GetState p u = StateChoosing)
    (h1 : t ≠ "Name") (h2 : t ≠ "Age") (h3 : t ≠ "Bio") (h4 : t ≠ "Children")
    (h5 : t ≠ "Done") :
    (onText p fs u t).1 = p ∧
    (onText p fs u t).2.1 = fs ∧
    (onText p fs u t).2.2
      = { text := "Пожалуйста, выбери кнопку из меню.", option := SendOption.menu } := by
  have e := onText_other p fs u t hs h1 h2 h3 h4 h5
  rw [e]
  exact ⟨rfl, rfl, rfl⟩

/-- Witness of C9: a first message "hello" from a user never seen before. -/
theorem fallback_in_choosing_witness :
    GetState emptyHandler sampleUser = StateChoosing ∧
    (onText emptyHandler sampleFiles sampleUser "hello").1 = emptyHandler ∧
    (onText emptyHandler sampleFiles sampleUser "hello").2.2
      = { text := "Пожалуйста, выбери кнопку из меню.", option := SendOption.menu } :=
  ⟨by decide,
   (fallback_in_choosing emptyHandler sampleFiles sampleUser "hello" (by decide) (by decide)
      (by decide) (by decide) (by decide) (by decide)).1,
   (fallback_in_choosing emptyHandler sampleFiles sampleUser "hello" (by decide) (by decide)
      (by decide) (by decide) (by decide) (by decide)).2.2⟩

/-- The three text events `f`, `v`, "Done" of one user, handled from the store with three
empty tables: the handler after the last event and the last reply. -/
theorem dialogue_from_empty (path : String) (fs : FileSystem) (u : GoInt64) (f v : String)
    (d : UserData) (hf : f = "Name" ∨ f = "Age" ∨ f = "Bio" ∨ f = "Children")
    (hd : ∀ (q : PersistenceHandler) (gs : FileSystem), q.Store.Data.lookup u = none →
      (UpdateData q gs u f v).1.Store.Data.lookup u = some d) :
    let p0 : PersistenceHandler :=
      { FilePath := path, Store := { State := ∅, Data := ∅, Ctx := ∅ } }
    let r1 := onText p0 fs u f
    let r2 := onText r1.1 r1.2.1 u v
    let r3 := onText r2.1 r2.2.1 u "Done"
    GetState r3.1 u = StateChoosing ∧
    r3.1.Store.Data.lookup u = some d ∧
    r3.2.2 = { text := "Я запомнил:\n" ++ ("Name: " ++ d.Name ++ "\nAge: " ++ d.Age
                  ++ "\nBio: " ++ d.Bio ++ "\nChildren: " ++ d.Children) ++ "\nДо встречи!"
               option := SendOption.RemoveKeyboard } := by
  intro p0 r1 r2 r3
  have h0 : GetState p0 u = StateChoosing := by
    simp [GetState, p0, StateChoosing]
  have e1 := onText_field p0 fs u f h0 hf
  have s1 : GetState r1.1 u = StateTypingReply := by
    simp only [r1, e1]
    exact setState_state (SetContext p0 fs u f).1 (SetContext p0 fs u f).2 u StateTypingReply
  have c1 : GetContext r1.1 u = f := by
    simp only [r1, e1]
    exact (getContext_congr
      (setState_ctx (SetContext p0 fs u f).1 (SetContext p0 fs u f).2 u StateTypingReply) u).trans
        (setContext_ctx p0 fs u f)
  have d1 : r1.1.Store.Data.lookup u = none := by
    simp only [r1, e1]
    exact Finmap.lookup_empty u
  have e2 := onText_reply r1.1 r1.2.1 u v s1
  rw [c1] at e2
  have s2 : GetState r2.1 u = StateChoosing := by
    simp only [r2, e2]
    exact setState_state (UpdateData r1.1 r1.2.1 u f v).1 (UpdateData r1.1 r1.2.1 u f v).2 u
      StateChoosing
  have d2 : r2.1.Store.Data.lookup u = some d := by
    simp only [r2, e2]
    exact hd r1.1 r1.2.1 d1
  have e3 := onText_done r2.1 r2.2.1 u s2
  have g2 := getDataString_of_lookup d2
  refine ⟨?_, ?_, ?_⟩
  · simp only [r3, e3]; exact s2
  · simp only [r3, e3]; exact d2
  · simp only [r3, e3, g2]

/-- C10 (end-to-end dialogue): from the store with three empty tables, the text events `f`
(one of the four field names), `v` (any text) and "Done" of a user `u` leave `u` in
`StateChoosing` with a record whose field `f` is `v` and whose other fields are empty, and
the last reply is the summary of that record between the two fixed lines, sent with the
remove-keyboard flag. -/
theorem end_to_end_dialogue (path : String) (fs : FileSystem) (u : GoInt64) (f v : String)
    (hf : f = "Name" ∨ f = "Age" ∨ f = "Bio" ∨ f = "Children") :
    let p0 : PersistenceHandler :=
      { FilePath := path, Store := { State := ∅, Data := ∅, Ctx := ∅ } }
    let r1 := onText p0 fs u f
    let r2 := onText r1.1 r1.2.1 u v
    let r3 := onText r2.1 r2.2.1 u "Done"
    let d : UserData :=
      { Name := if f = "Name" then v else ""
        Age := if f = "Age" then v else ""
        Bio := if f = "Bio" then v else ""
        Children := if f = "Children" then v else "" }
    GetState r3.1 u = StateChoosing ∧
    r3.1.Store.Data.lookup u = some d ∧
    r3.2.2 = { text := "Я запомнил:\n" ++ ("Name: " ++ d.Name ++ "\nAge: " ++ d.Age
                  ++ "\nBio: " ++ d.Bio ++ "\nChildren: " ++ d.Children) ++ "\nДо встречи!"
               option := SendOption.RemoveKeyboard } := by
  intro p0 r1 r2 r3 d
  refine dialogue_from_empty path fs u f v d hf ?_
  intro q gs hq
  have iso := updateData_lookup q gs u v _ rfl
  simp only [hq, Option.getD_none] at iso
  rcases hf with h | h | h | h <;> subst h
  · rw [iso.1]; simp [d]
  · rw [iso.2.1]; simp [d]
  · rw [iso.2.2.1]; simp [d]
  · rw [iso.2.2.2]; simp [d]

/-- Witness of C10, the dialogue of the specification: Name, Ivan, Done. -/
theorem end_to_end_dialogue_witness :
    ("Name" = "Name" ∨ "Name" = "Age" ∨ "Name" = "Bio" ∨ "Name" = "Children") ∧
    GetState (onText (onText (onText emptyHandler sampleFiles sampleUser "Name").1
        (onText emptyHandler sampleFiles sampleUser "Name").2.1 sampleUser "Ivan").1
      (onText (onText emptyHandler sampleFiles sampleUser "Name").1
        (onText emptyHandler sampleFiles sampleUser "Name").2.1 sampleUser "Ivan").2.1
      sampleUser "Done").1 sampleUser = StateChoosing ∧
    (onText (onText (onText emptyHandler sampleFiles sampleUser "Name").1
        (onText emptyHandler sampleFiles sampleUser "Name").2.1 sampleUser "Ivan").1
      (onText (onText emptyHandler sampleFiles sampleUser "Name").1
        (onText emptyHandler sampleFiles sampleUser "Name").2.1 sampleUser "Ivan").2.1
      sampleUser "Done").2.2
      = { text := "Я запомнил:\nName: Ivan\nAge: \nBio: \nChildren: \nДо встречи!"
          option := SendOption.RemoveKeyboard } :=
  ⟨by decide,
   (end_to_end_dialogue "data.json" sampleFiles sampleUser "Name" "Ivan" (by decide)).1,
   (end_to_end_dialogue "data.json" sampleFiles sampleUser "Name" "Ivan" (by decide)).2.2.trans
     (by decide)⟩

/-! ## Frames of the store operations -/

theorem insert_lookup_self {V : Type} (m : Finmap (fun _ : GoInt64 => V)) (u : GoInt64) (v : V)
    (h : m.lookup u = some v) : m.insert u v = m := by
  apply Finmap.ext_lookup
  intro x
  by_cases hx : x = u
  · subst hx; rw [Finmap.lookup_insert, h]
  · rw [Finmap.lookup_insert_of_ne _ hx]

theorem setState_state_ne (p : PersistenceHandler) (fs : FileSystem) (u w : GoInt64)
    (st : ConversationState) (h : w ≠ u) :
    (SetState p fs u st).1.Store.State.lookup w = p.Store.State.lookup w := by
  simp only [SetState, Finmap.lookup_insert_of_ne _ h]

theorem setContext_state (p : PersistenceHandler) (fs : FileSystem) (u : GoInt64)
    (val : String) : (SetContext p fs u val).1.Store.State = p.Store.State := rfl

theorem setContext_ctx_ne (p : PersistenceHandler) (fs : FileSystem) (u w : GoInt64)
    (val : String) (h : w ≠ u) :
    (SetContext p fs u val).1.Store.Ctx.lookup w = p.Store.Ctx.lookup w := by
  simp only [SetContext, Finmap.lookup_insert_of_ne _ h]

theorem updateData_state (p : PersistenceHandler) (fs : FileSystem) (u : GoInt64)
    (k v : String) : (UpdateData p fs u k v).1.Store.State = p.Store.State := rfl

theorem updateData_data_ne (p : PersistenceHandler) (fs : FileSystem) (u w : GoInt64)
    (k v : String) (h : w ≠ u) :
    (UpdateData p fs u k v).1.Store.Data.lookup w = p.Store.Data.lookup w := by
  simp only [UpdateData, Finmap.lookup_insert_of_ne _ h]

theorem updateData_unknown (p : PersistenceHandler) (fs : FileSystem) (u : GoInt64)
    (k v : String) (h1 : k ≠ "Name") (h2 : k ≠ "Age") (h3 : k ≠ "Bio") (h4 : k ≠ "Children") :
    (UpdateData p fs u k v).1.Store.Data.lookup u
      = some ((p.Store.Data.lookup u).getD { Name := "", Age := "", Bio := "", Children := "" }) := by
  simp only [UpdateData, Finmap.lookup_insert, if_neg h1, if_neg h2, if_neg h3, if_neg h4]
  cases p.Store.Data.lookup u <;> rfl

theorem updateData_unknown_present (p : PersistenceHandler) (fs : FileSystem) (u : GoInt64)
    (k v : String) (d : UserData) (h1 : k ≠ "Name") (h2 : k ≠ "Age") (h3 : k ≠ "Bio")
    (h4 : k ≠ "Children") (hd : p.Store.Data.lookup u = some d) :
    (UpdateData p fs u k v).1 = p := by
  cases p with
  | mk path store =>
    cases store with
    | mk st da cx =>
      simp only [UpdateData, if_neg h1, if_neg h2, if_neg h3, if_neg h4] at hd ⊢
      simp only [hd, insert_lookup_self da u d hd]

/-! ## Unknown field names -/

/-- C11, the claim as stated fails: for a user without a record, `UpdateData` with the
unknown key "Email" creates a record, and the summary of the user changes from the
sentinel to the four lines with empty fields. -/
theorem unknown_key_creates_record :
    ("Email" ≠ "Name" ∧ "Email" ≠ "Age" ∧ "Email" ≠ "Bio" ∧ "Email" ≠ "Children") ∧
    emptyHandler.Store.Data.lookup sampleUser = none ∧
    (UpdateData emptyHandler sampleFiles sampleUser "Email" "a@b.c").1.Store.Data.lookup sampleUser
      = some { Name := "", Age := "", Bio := "", Children := "" } ∧
    GetDataString emptyHandler sampleUser = "Нет данных." ∧
    GetDataString (UpdateData emptyHandler sampleFiles sampleUser "Email" "a@b.c").1 sampleUser
      = "Name: \nAge: \nBio: \nChildren: " ∧
    GetDataString (UpdateData emptyHandler sampleFiles sampleUser "Email" "a@b.c").1 sampleUser
      ≠ GetDataString emptyHandler sampleUser := by
  decide

/-- C11, amended: `UpdateData(u, k, v)` with `k` none of the four field names leaves the
state table, the context table and the record of every other user as they were; when `u`
has a record the whole store is as it was, and the summary of every user is unchanged;
when `u` has no record, a record with four empty fields is created for `u`. -/
theorem unknown_key_update (p : PersistenceHandler) (fs : FileSystem) (u : GoInt64)
    (k v : String) (h1 : k ≠ "Name") (h2 : k ≠ "Age") (h3 : k ≠ "Bio") (h4 : k ≠ "Children") :
    (UpdateData p fs u k v).1.Store.State = p.Store.State ∧
    (UpdateData p fs u k v).1.Store.Ctx = p.Store.Ctx ∧
    (∀ w : GoInt64, w ≠ u →
      (UpdateData p fs u k v).1.Store.Data.lookup w = p.Store.Data.lookup w ∧
      GetDataString (UpdateData p fs u k v).1 w = GetDataString p w) ∧
    (∀ d : UserData, p.Store.Data.lookup u = some d →
      (UpdateData p fs u k v).1 = p ∧
      ∀ w : GoInt64, GetDataString (UpdateData p fs u k v).1 w = GetDataString p w) ∧
    (p.Store.Data.lookup u = none →
      (UpdateData p fs u k v).1.Store.Data.lookup u
        = some { Name := "", Age := "", Bio := "", Children := "" } ∧
      GetDataString (UpdateData p fs u k v).1 u
        = "Name: " ++ "" ++ "\nAge: " ++ "" ++ "\nBio: " ++ "" ++ "\nChildren: " ++ "") := by
  refine ⟨rfl, rfl, ?_, ?_, ?_⟩
  · intro w hw
    have e := updateData_data_ne p fs u w k v hw
    exact ⟨e, by simp only [GetDataString, e]⟩
  · intro d hd
    have e := updateData_unknown_present p fs u k v d h1 h2 h3 h4 hd
    exact ⟨e, fun w => by rw [e]⟩
  · intro hn
    have e := updateData_unknown p fs u k v h1 h2 h3 h4
    rw [hn] at e
    simp only [Option.getD_none] at e
    have g := getDataString_of_lookup (d := { Name := "", Age := "", Bio := "", Children := "" }) e
    exact ⟨e, g⟩

/-- Witness of C11 (amended): the key "Email" for a user with a record, and for a user
without one. -/
theorem unknown_key_update_witness :
    ("Email" ≠ "Name" ∧ "Email" ≠ "Age" ∧ "Email" ≠ "Bio" ∧ "Email" ≠ "Children") ∧
    (UpdateData sampleHandler sampleFiles sampleUser "Email" "a@b.c").1 = sampleHandler ∧
    (UpdateData emptyHandler sampleFiles sampleUser "Email" "a@b.c").1.Store.Data.lookup sampleUser
      = some { Name := "", Age := "", Bio := "", Children := "" } :=
  ⟨by decide,
   ((unknown_key_update sampleHandler sampleFiles sampleUser "Email" "a@b.c" (by decide)
      (by decide) (by decide) (by decide)).2.2.2.1
      { Name := "Ivan", Age := "30", Bio := "", Children := "" } (by decide)).1,
   ((unknown_key_update emptyHandler sampleFiles sampleUser "Email" "a@b.c" (by decide)
      (by decide) (by decide) (by decide)).2.2.2.2 (by decide)).1⟩

/-! ## Commands -/

/-- C12 (commands): `/start` puts `u` in `StateChoosing` and leaves the context table, the
data table and the state of every other user as they were; `/show_data` leaves the store
and the file as they were and replies with the summary of `u` after the fixed line. -/
theorem commands (p : PersistenceHandler) (fs : FileSystem) (u : GoInt64) :
    (GetState (onStart p fs u).1 u = StateChoosing ∧
      (onStart p fs u).1.Store.Ctx = p.Store.Ctx ∧
      GetContext (onStart p fs u).1 u = GetContext p u ∧
      (onStart p fs u).1.Store.Data = p.Store.Data ∧
      ∀ w : GoInt64, w ≠ u →
        (onStart p fs u).1.Store.State.lookup w = p.Store.State.lookup w ∧
        GetState (onStart p fs u).1 w = GetState p w) ∧
    ((onShowData p fs u).1 = p ∧
      (onShowData p fs u).2.1 = fs ∧
      GetState (onShowData p fs u).1 u = GetState p u ∧
      (onShowData p fs u).2.2
        = { text := "Вот что я знаю:\n" ++ GetDataString p u, option := SendOption.none }) := by
  refine ⟨⟨setState_state p fs u StateChoosing, rfl, rfl, rfl, ?_⟩, rfl, rfl, rfl, rfl⟩
  intro w hw
  have e := setState_state_ne p fs u w StateChoosing hw
  refine ⟨e, ?_⟩
  show GetState (SetState p fs u StateChoosing).1 w = GetState p w
  simp only [GetState, e]

/-- Witness of C12: `/start` of a user who is asked for a value, with a second user
present. -/
theorem commands_witness :
    GetState (onStart awaitingHandler sampleFiles sampleUser).1 sampleUser = StateChoosing ∧
    GetContext (onStart awaitingHandler sampleFiles sampleUser).1 sampleUser = "Name" ∧
    GetState (onStart awaitingHandler sampleFiles otherUser).1 sampleUser = StateTypingReply ∧
    (onShowData sampleHandler sampleFiles sampleUser).2.2
      = { text := "Вот что я знаю:\nName: Ivan\nAge: 30\nBio: \nChildren: "
          option := SendOption.none } :=
  ⟨(commands awaitingHandler sampleFiles sampleUser).1.1,
   (commands awaitingHandler sampleFiles sampleUser).1.2.2.1.trans (by decide),
   ((commands awaitingHandler sampleFiles otherUser).1.2.2.2.2 sampleUser (by decide)).2.trans
     (by decide),
   (commands sampleHandler sampleFiles sampleUser).2.2.2.2.trans (by decide)⟩

/-! ## Files that are not JSON -/

/-- C13 (malformed-file resilience): on a file whose bytes are not valid JSON,
`NewPersistence` returns the handler with three empty tables, the same handler as on a
path without a file; every user is then in `StateChoosing`, with the empty context and
the sentinel as summary. -/
theorem malformed_file_resilience (P : String) (fs : FileSystem)
    (h : fs.content P = FileContent.invalid) :
    NewPersistence P fs = { FilePath := P, Store := { State := ∅, Data := ∅, Ctx := ∅ } } ∧
    (∀ gs : FileSystem, gs.content P = FileContent.missing →
      NewPersistence P fs = NewPersistence P gs) ∧
    ∀ u : GoInt64,
      GetState (NewPersistence P fs) u = StateChoosing ∧
      GetContext (NewPersistence P fs) u = "" ∧
      GetDataString (NewPersistence P fs) u = "Нет данных." := by
  have e : NewPersistence P fs
      = { FilePath := P, Store := { State := ∅, Data := ∅, Ctx := ∅ } } := by
    simp only [NewPersistence, Load, h]
  refine ⟨e, ?_, ?_⟩
  · intro gs hg
    rw [e]
    simp only [NewPersistence, Load, hg]
  · intro u
    rw [e]
    exact ⟨rfl, rfl, rfl⟩

/-- Witness of C13: `data.json` holds bytes that are not JSON. -/
theorem malformed_file_resilience_witness :
    garbageFiles.content "data.json" = FileContent.invalid ∧
    NewPersistence "data.json" garbageFiles = NewPersistence "data.json" sampleFiles ∧
    GetDataString (NewPersistence "data.json" garbageFiles) sampleUser = "Нет данных." :=
  ⟨rfl,
   (malformed_file_resilience "data.json" garbageFiles rfl).2.1 sampleFiles rfl,
   ((malformed_file_resilience "data.json" garbageFiles rfl).2.2 sampleUser).2.2⟩

/-! ## Which calls create entries -/

/-- C14, the claim as stated fails: after `SetState` on the empty store the user has an
entry in the state table, and none in the data table and none in the context table. -/
theorem setState_materializes_state_only :
    (SetState emptyHandler sampleFiles sampleUser StateChoosing).1.Store.State.lookup sampleUser
      = some StateChoosing ∧
    (SetState emptyHandler sampleFiles sampleUser StateChoosing).1.Store.Data.lookup sampleUser
      = none ∧
    (SetState emptyHandler sampleFiles sampleUser StateChoosing).1.Store.Ctx.lookup sampleUser
      = none := by
  decide

/-- C14, amended: `SetState` leaves an entry for `u` in the state table, `SetContext` in
the context table and `UpdateData` (for any key) in the data table, and each of the three
calls leaves the other two tables as they were; the reads return what the tables hold for
`u`, the default for an absent entry, and create nothing. -/
theorem written_table_materialized (p : PersistenceHandler) (fs : FileSystem) (u : GoInt64)
    (st : ConversationState) (val key value : String) :
    (u ∈ (SetState p fs u st).1.Store.State ∧
      (SetState p fs u st).1.Store.Data = p.Store.Data ∧
      (SetState p fs u st).1.Store.Ctx = p.Store.Ctx) ∧
    (u ∈ (SetContext p fs u val).1.Store.Ctx ∧
      (SetContext p fs u val).1.Store.State = p.Store.State ∧
      (SetContext p fs u val).1.Store.Data = p.Store.Data) ∧
    (u ∈ (UpdateData p fs u key value).1.Store.Data ∧
      (UpdateData p fs u key value).1.Store.State = p.Store.State ∧
      (UpdateData p fs u key value).1.Store.Ctx = p.Store.Ctx) ∧
    (GetState p u = (p.Store.State.lookup u).getD StateChoosing ∧
      GetContext p u = (p.Store.Ctx.lookup u).getD "" ∧
      (u ∉ p.Store.Data → GetDataString p u = "Нет данных.")) := by
  refine ⟨⟨?_, rfl, rfl⟩, ⟨?_, rfl, rfl⟩, ⟨?_, rfl, rfl⟩, ?_, ?_, ?_⟩
  · simp only [SetState, Finmap.mem_insert, true_or]
  · simp only [SetContext, Finmap.mem_insert, true_or]
  · simp only [UpdateData, Finmap.mem_insert, true_or]
  · unfold GetState
    cases p.Store.State.lookup u <;> rfl
  · unfold GetContext
    cases p.Store.Ctx.lookup u <;> rfl
  · intro h
    simp only [GetDataString, Finmap.lookup_eq_none.mpr h]

/-! ## What the handlers maintain -/

theorem getState_eq_reply {p : PersistenceHandler} {u : GoInt64}
    (h : GetState p u = StateTypingReply) : p.Store.State.lookup u = some StateTypingReply := by
  unfold GetState at h
  cases hl : p.Store.State.lookup u with
  | none => rw [hl] at h; exact absurd h (by decide)
  | some st => rw [hl] at h; rw [← h]

theorem dialogueInv_empty (path : String) :
    DialogueInv { FilePath := path, Store := { State := ∅, Data := ∅, Ctx := ∅ } } := by
  refine ⟨?_, ?_, ?_⟩
  · intro u c h; rw [Finmap.lookup_empty] at h; exact Option.noConfusion h
  · intro u st h; rw [Finmap.lookup_empty] at h; exact Option.noConfusion h
  · intro u h; rw [Finmap.lookup_empty] at h; exact Option.noConfusion h

theorem dialogueInv_congr {p q : PersistenceHandler} (hS : q.Store.State = p.Store.State)
    (hC : q.Store.Ctx = p.Store.Ctx) (h : DialogueInv p) : DialogueInv q := by
  unfold DialogueInv at h ⊢
  rw [hS, hC]
  exact h

theorem dialogueInv_setState_choosing (p : PersistenceHandler) (fs : FileSystem) (u : GoInt64)
    (h : DialogueInv p) : DialogueInv (SetState p fs u StateChoosing).1 := by
  obtain ⟨h1, h2, h3⟩ := h
  refine ⟨h1, ?_, ?_⟩
  · intro w st hw
    by_cases hwu : w = u
    · subst hwu
      simp only [SetState, Finmap.lookup_insert, Option.some.injEq] at hw
      exact Or.inl hw.symm
    · rw [setState_state_ne p fs u w _ hwu] at hw
      exact h2 w st hw
  · intro w hw
    by_cases hwu : w = u
    · subst hwu
      simp only [SetState, Finmap.lookup_insert, Option.some.injEq] at hw
      exact absurd hw (by decide)
    · rw [setState_state_ne p fs u w _ hwu] at hw
      exact h3 w hw

theorem dialogueInv_select (p : PersistenceHandler) (fs : FileSystem) (u : GoInt64)
    (t : String) (ht : IsField t) (h : DialogueInv p) :
    DialogueInv
      (SetState (SetContext p fs u t).1 (SetContext p fs u t).2 u StateTypingReply).1 := by
  obtain ⟨h1, h2, h3⟩ := h
  have hc : ∀ (w : GoInt64),
      (SetState (SetContext p fs u t).1 (SetContext p fs u t).2 u StateTypingReply).1.Store.Ctx.lookup w
        = if w = u then some t else p.Store.Ctx.lookup w := by
    intro w
    by_cases hwu : w = u
    · subst hwu
      simp only [SetState, SetContext, Finmap.lookup_insert, if_true]
    · simp only [SetState, SetContext, Finmap.lookup_insert_of_ne _ hwu, if_neg hwu]
  have hs : ∀ (w : GoInt64),
      (SetState (SetContext p fs u t).1 (SetContext p fs u t).2 u StateTypingReply).1.Store.State.lookup w
        = if w = u then some StateTypingReply else p.Store.State.lookup w := by
    intro w
    by_cases hwu : w = u
    · subst hwu
      simp only [SetState, SetContext, Finmap.lookup_insert, if_true]
    · simp only [SetState, SetContext, Finmap.lookup_insert_of_ne _ hwu, if_neg hwu]
  refine ⟨?_, ?_, ?_⟩
  · intro w c hw
    rw [hc] at hw
    by_cases hwu : w = u
    · rw [if_pos hwu] at hw
      rw [← Option.some.inj hw]
      exact ht
    · rw [if_neg hwu] at hw
      exact h1 w c hw
  · intro w st hw
    rw [hs] at hw
    by_cases hwu : w = u
    · rw [if_pos hwu] at hw
      exact Or.inr (Option.some.inj hw).symm
    · rw [if_neg hwu] at hw
      exact h2 w st hw
  · intro w hw
    rw [hs] at hw
    rw [hc]
    by_cases hwu : w = u
    · rw [if_pos hwu]
      exact ⟨t, rfl⟩
    · rw [if_neg hwu] at hw ⊢
      exact h3 w hw

theorem dialogueInv_onText (p : PersistenceHandler) (fs : FileSystem) (u : GoInt64)
    (t : String) (h : DialogueInv p) : DialogueInv (onText p fs u t).1 := by
  unfold onText
  simp only []
  split_ifs with hs ht hd hr
  · exact dialogueInv_select p fs u t ht h
  · exact h
  · exact h
  · exact dialogueInv_setState_choosing (UpdateData p fs u (GetContext p u) t).1
      (UpdateData p fs u (GetContext p u) t).2 u
      (dialogueInv_congr (updateData_state p fs u _ t) (updateData_ctx p fs u _ t) h)
  · exact h

theorem dialogueInv_handle (p : PersistenceHandler) (fs : FileSystem) (e : Event)
    (h : DialogueInv p) : DialogueInv (handle p fs e).1 := by
  cases e with
  | start u => exact dialogueInv_setState_choosing p fs u h
  | showData u => exact h
  | text u t => exact dialogueInv_onText p fs u t h

theorem dialogueInv_runEvents (evs : List Event) (w : PersistenceHandler × FileSystem)
    (h : DialogueInv w.1) : DialogueInv (runEvents w evs).1 := by
  induction evs generalizing w with
  | nil => exact h
  | cons e evs ih =>
    exact ih ((handle w.1 w.2 e).1, (handle w.1 w.2 e).2.1) (dialogueInv_handle w.1 w.2 e h)

theorem dialogueInv_reachable (path : String) (fs : FileSystem) (evs : List Event) :
    DialogueInv
      (runEvents ({ FilePath := path, Store := { State := ∅, Data := ∅, Ctx := ∅ } }, fs)
        evs).1 :=
  dialogueInv_runEvents evs _ (dialogueInv_empty path)

theorem getState_of_inv {p : PersistenceHandler} (h : DialogueInv p) (u : GoInt64) :
    GetState p u = StateChoosing ∨ GetState p u = StateTypingReply := by
  unfold GetState
  cases hl : p.Store.State.lookup u with
  | none => exact Or.inl rfl
  | some st => exact h.2.1 u st hl

theorem onText_text_ne_restart (p : PersistenceHandler) (fs : FileSystem) (u : GoInt64)
    (t : String) (h : GetState p u = StateChoosing ∨ GetState p u = StateTypingReply) :
    (onText p fs u t).2.2.text ≠ "Напиши /start, чтобы начать диалог." := by
  have hne : StateTypingReply ≠ StateChoosing := by decide
  unfold onText
  simp only []
  split_ifs with hs ht hd hr
  · intro e
    have e2 := congrArg (fun s => s.data.head?) e
    simp [String.data_append] at e2
  · intro e
    have e2 := congrArg (fun s => s.data.head?) e
    simp [String.data_append] at e2
  · intro e
    have e2 := congrArg (fun s => s.data.head?) e
    simp at e2
  · intro e
    have e2 := congrArg (fun s => s.data.head?) e
    simp [String.data_append] at e2
  · rcases h with h | h
    · exact absurd h hs
    · exact absurd h hr

theorem updateData_lookup_field (p : PersistenceHandler) (fs : FileSystem) (u : GoInt64)
    (k v : String) (hk : IsField k) :
    (UpdateData p fs u k v).1.Store.Data.lookup u
      = some
          { Name := if k = "Name" then v
              else ((p.Store.Data.lookup u).getD
                { Name := "", Age := "", Bio := "", Children := "" }).Name
            Age := if k = "Age" then v
              else ((p.Store.Data.lookup u).getD
                { Name := "", Age := "", Bio := "", Children := "" }).Age
            Bio := if k = "Bio" then v
              else ((p.Store.Data.lookup u).getD
                { Name := "", Age := "", Bio := "", Children := "" }).Bio
            Children := if k = "Children" then v
              else ((p.Store.Data.lookup u).getD
                { Name := "", Age := "", Bio := "", Children := "" }).Children } := by
  have iso := updateData_lookup p fs u v _ rfl
  rcases hk with h | h | h | h <;> subst h
  · rw [iso.1]; simp
  · rw [iso.2.1]; simp
  · rw [iso.2.2.1]; simp
  · rw [iso.2.2.2]; simp

/-! ## Stores reachable from the empty store -/

/-- C15 (context validity): after any sequence of handled events from the store with three
empty tables, every entry of the context table is one of Name, Age, Bio, Children. -/
theorem context_validity (path : String) (fs : FileSystem) (evs : List Event) (u : GoInt64)
    (c : String)
    (h : (runEvents ({ FilePath := path, Store := { State := ∅, Data := ∅, Ctx := ∅ } }, fs)
            evs).1.Store.Ctx.lookup u = some c) :
    c = "Name" ∨ c = "Age" ∨ c = "Bio" ∨ c = "Children" :=
  (dialogueInv_reachable path fs evs).1 u c h

/-- Witness of C15: a message "hello", then the button Age. -/
theorem context_validity_witness :
    (runEvents (emptyHandler, sampleFiles)
        [Event.text sampleUser "hello", Event.text sampleUser "Age"]).1.Store.Ctx.lookup
        sampleUser = some "Age" ∧
    ("Age" = "Name" ∨ "Age" = "Age" ∨ "Age" = "Bio" ∨ "Age" = "Children") :=
  ⟨by decide,
   context_validity "data.json" sampleFiles
     [Event.text sampleUser "hello", Event.text sampleUser "Age"] sampleUser "Age" (by decide)⟩

/-- C16 (only two phases are reachable): after any sequence of handled events from the
store with three empty tables, every user is in `StateChoosing` or `StateTypingReply`,
never in `StateTypingChoice`, and the reply to a text message is never the one of the last
branch of the text handler. -/
theorem two_phases_reachable (path : String) (fs : FileSystem) (evs : List Event)
    (u : GoInt64) (t : String) :
    (GetState
        (runEvents ({ FilePath := path, Store := { State := ∅, Data := ∅, Ctx := ∅ } }, fs)
          evs).1 u = StateChoosing ∨
      GetState
        (runEvents ({ FilePath := path, Store := { State := ∅, Data := ∅, Ctx := ∅ } }, fs)
          evs).1 u = StateTypingReply) ∧
    GetState
        (runEvents ({ FilePath := path, Store := { State := ∅, Data := ∅, Ctx := ∅ } }, fs)
          evs).1 u ≠ StateTypingChoice ∧
    (onText
        (runEvents ({ FilePath := path, Store := { State := ∅, Data := ∅, Ctx := ∅ } }, fs)
          evs).1
        (runEvents ({ FilePath := path, Store := { State := ∅, Data := ∅, Ctx := ∅ } }, fs)
          evs).2 u t).2.2.text ≠ "Напиши /start, чтобы начать диалог." := by
  have hst := getState_of_inv (dialogueInv_reachable path fs evs) u
  refine ⟨hst, ?_, onText_text_ne_restart _ _ u t hst⟩
  rcases hst with h | h <;> rw [h] <;> decide

/-- C19 (awaiting a reply implies a valid context): after any sequence of handled events
from the store with three empty tables, a user in `StateTypingReply` has a context that
is one of the four field names, and the text handler then stores the text of the next
message in that field of the record of the user. -/
theorem awaiting_reply_valid_context (path : String) (fs : FileSystem) (evs : List Event)
    (u : GoInt64) (t : String)
    (h : GetState
        (runEvents ({ FilePath := path, Store := { State := ∅, Data := ∅, Ctx := ∅ } }, fs)
          evs).1 u = StateTypingReply) :
    let w := runEvents ({ FilePath := path, Store := { State := ∅, Data := ∅, Ctx := ∅ } }, fs)
      evs
    let old := (w.1.Store.Data.lookup u).getD { Name := "", Age := "", Bio := "", Children := "" }
    w.1.Store.Ctx.lookup u = some (GetContext w.1 u) ∧
    (GetContext w.1 u = "Name" ∨ GetContext w.1 u = "Age" ∨ GetContext w.1 u = "Bio" ∨
      GetContext w.1 u = "Children") ∧
    (onText w.1 w.2 u t).1.Store.Data.lookup u
      = some
          { Name := if GetContext w.1 u = "Name" then t else old.Name
            Age := if GetContext w.1 u = "Age" then t else old.Age
            Bio := if GetContext w.1 u = "Bio" then t else old.Bio
            Children := if GetContext w.1 u = "Children" then t else old.Children } := by
  intro w old
  have inv : DialogueInv w.1 := dialogueInv_reachable path fs evs
  obtain ⟨c, hc⟩ := inv.2.2 u (getState_eq_reply h)
  have hg : GetContext w.1 u = c := by simp only [GetContext, hc]
  have hf : IsField c := inv.1 u c hc
  refine ⟨by rw [hg]; exact hc, by rw [hg]; exact hf, ?_⟩
  have e := onText_reply w.1 w.2 u t h
  rw [e, hg]
  exact updateData_lookup_field w.1 w.2 u c t hf

/-- Witness of C19: the button Bio, then the text "Done" as the value. -/
theorem awaiting_reply_valid_context_witness :
    GetState (runEvents (emptyHandler, sampleFiles) [Event.text sampleUser "Bio"]).1 sampleUser
      = StateTypingReply ∧
    GetContext (runEvents (emptyHandler, sampleFiles) [Event.text sampleUser "Bio"]).1
        sampleUser = "Bio" ∧
    (onText (runEvents (emptyHandler, sampleFiles) [Event.text sampleUser "Bio"]).1
        (runEvents (emptyHandler, sampleFiles) [Event.text sampleUser "Bio"]).2
        sampleUser "Done").1.Store.Data.lookup sampleUser
      = some { Name := "", Age := "", Bio := "Done", Children := "" } :=
  ⟨by decide, by decide,
   (awaiting_reply_valid_context "data.json" sampleFiles [Event.text sampleUser "Bio"]
      sampleUser "Done" (by decide)).2.2.trans (by decide)⟩

/-! ## A write that fails -/

theorem updateData_reload (p : PersistenceHandler) (fs : FileSystem) (u : GoInt64)
    (k v : String) (hw : fs.writable p.FilePath = true) :
    NewPersistence p.FilePath (UpdateData p fs u k v).2 = (UpdateData p fs u k v).1 :=
  (newPersistence_after_save (UpdateData p fs u k v).1 fs hw).1

/-- C17, the claim as stated fails: when the write of `UpdateData` is refused, the field
holds the new value in memory (not the prior one), while the file is not written; a
handler loaded from the file has no record for the user. -/
theorem failed_write_keeps_memory_update :
    (Save (UpdateData emptyHandler readOnlyFiles sampleUser "Name" "Ivan").1 readOnlyFiles).2
      = false ∧
    emptyHandler.Store.Data.lookup sampleUser = none ∧
    (UpdateData emptyHandler readOnlyFiles sampleUser "Name" "Ivan").1.Store.Data.lookup sampleUser
      = some { Name := "Ivan", Age := "", Bio := "", Children := "" } ∧
    (NewPersistence "data.json"
        (UpdateData emptyHandler readOnlyFiles sampleUser "Name" "Ivan").2).Store.Data.lookup
        sampleUser = none := by
  decide

/-- C17, amended: after `UpdateData(u, k, v)` with `k` one of the four field names, field
`k` of the record of `u` holds `v` in memory whether the write succeeds or not; when the
write succeeds, a handler loaded from the file equals the one in memory, so the field
holds `v` in the persisted image as well. -/
theorem update_applies_without_rollback (p : PersistenceHandler) (fs : FileSystem)
    (u : GoInt64) (k v : String)
    (hk : k = "Name" ∨ k = "Age" ∨ k = "Bio" ∨ k = "Children") :
    let old := (p.Store.Data.lookup u).getD { Name := "", Age := "", Bio := "", Children := "" }
    let new : UserData :=
      { Name := if k = "Name" then v else old.Name
        Age := if k = "Age" then v else old.Age
        Bio := if k = "Bio" then v else old.Bio
        Children := if k = "Children" then v else old.Children }
    (UpdateData p fs u k v).1.Store.Data.lookup u = some new ∧
    (fs.writable p.FilePath = true →
      NewPersistence p.FilePath (UpdateData p fs u k v).2 = (UpdateData p fs u k v).1 ∧
      (NewPersistence p.FilePath (UpdateData p fs u k v).2).Store.Data.lookup u = some new) := by
  intro old new
  have e := updateData_lookup_field p fs u k v hk
  refine ⟨e, fun hw => ?_⟩
  have r := updateData_reload p fs u k v hw
  exact ⟨r, by rw [r]; exact e⟩

/-- Witness of C17 (amended): a write that succeeds and a write that is refused. -/
theorem update_applies_without_rollback_witness :
    ("Age" = "Name" ∨ "Age" = "Age" ∨ "Age" = "Bio" ∨ "Age" = "Children") ∧
    sampleFiles.writable sampleHandler.FilePath = true ∧
    (NewPersistence sampleHandler.FilePath
        (UpdateData sampleHandler sampleFiles sampleUser "Age" "31").2).Store.Data.lookup
        sampleUser = some { Name := "Ivan", Age := "31", Bio := "", Children := "" } ∧
    (UpdateData sampleHandler readOnlyFiles sampleUser "Age" "31").1.Store.Data.lookup sampleUser
      = some { Name := "Ivan", Age := "31", Bio := "", Children := "" } :=
  ⟨by decide, rfl,
   ((update_applies_without_rollback sampleHandler sampleFiles sampleUser "Age" "31"
      (by decide)).2 rfl).2.trans (by decide),
   (update_applies_without_rollback sampleHandler readOnlyFiles sampleUser "Age" "31"
      (by decide)).1.trans (by decide)⟩

/-! ## The lock -/

theorem onText_frame (p : PersistenceHandler) (fs : FileSystem) (u w : GoInt64) (t : String)
    (hw : w ≠ u) :
    (onText p fs u t).1.Store.State.lookup w = p.Store.State.lookup w ∧
    (onText p fs u t).1.Store.Ctx.lookup w = p.Store.Ctx.lookup w ∧
    (onText p fs u t).1.Store.Data.lookup w = p.Store.Data.lookup w := by
  unfold onText
  simp only []
  split_ifs with hs ht hd hr
  · exact ⟨by simp only [SetState, SetContext, Finmap.lookup_insert_of_ne _ hw],
      by simp only [SetState, SetContext, Finmap.lookup_insert_of_ne _ hw], rfl⟩
  · exact ⟨rfl, rfl, rfl⟩
  · exact ⟨rfl, rfl, rfl⟩
  · exact ⟨by simp only [SetState, UpdateData, Finmap.lookup_insert_of_ne _ hw], rfl,
      by simp only [SetState, UpdateData, Finmap.lookup_insert_of_ne _ hw]⟩
  · exact ⟨rfl, rfl, rfl⟩

theorem handle_frame (p : PersistenceHandler) (fs : FileSystem) (e : Event) (w : GoInt64)
    (hw : w ≠ e.user) :
    (handle p fs e).1.Store.State.lookup w = p.Store.State.lookup w ∧
    (handle p fs e).1.Store.Ctx.lookup w = p.Store.Ctx.lookup w ∧
    (handle p fs e).1.Store.Data.lookup w = p.Store.Data.lookup w := by
  cases e with
  | start u => exact ⟨setState_state_ne p fs u w StateChoosing hw, rfl, rfl⟩
  | showData u => exact ⟨rfl, rfl, rfl⟩
  | text u t => exact onText_frame p fs u w t hw

theorem handle_reply_local (p q : PersistenceHandler) (fs gs : FileSystem) (e : Event)
    (hS : q.Store.State.lookup e.user = p.Store.State.lookup e.user)
    (hC : q.Store.Ctx.lookup e.user = p.Store.Ctx.lookup e.user)
    (hD : q.Store.Data.lookup e.user = p.Store.Data.lookup e.user) :
    (handle q gs e).2.2 = (handle p fs e).2.2 := by
  cases e with
  | start u => rfl
  | showData u =>
    have hd : GetDataString q u = GetDataString p u := by
      simp only [GetDataString]; rw [show q.Store.Data.lookup u = p.Store.Data.lookup u from hD]
    simp only [handle, onShowData, hd]
  | text u t =>
    have hs : GetState q u = GetState p u := by
      simp only [GetState]; rw [show q.Store.State.lookup u = p.Store.State.lookup u from hS]
    have hc : GetContext q u = GetContext p u := by
      simp only [GetContext]; rw [show q.Store.Ctx.lookup u = p.Store.Ctx.lookup u from hC]
    have hd : GetDataString q u = GetDataString p u := by
      simp only [GetDataString]; rw [show q.Store.Data.lookup u = p.Store.Data.lookup u from hD]
    simp only [handle, onText, hs, hc, hd]
    split_ifs <;> rfl

/-- C20 (cross-user isolation): handling an event of a user leaves the state, the context
and the record of every other user `w` as they were, and the reply is the same in any two
stores that hold the same entries for the sender, whatever they hold for `w`. -/
theorem cross_user_isolation (p : PersistenceHandler) (fs : FileSystem) (e : Event)
    (w : GoInt64) (hw : e.user ≠ w) :
    ((handle p fs e).1.Store.State.lookup w = p.Store.State.lookup w ∧
      (handle p fs e).1.Store.Ctx.lookup w = p.Store.Ctx.lookup w ∧
      (handle p fs e).1.Store.Data.lookup w = p.Store.Data.lookup w ∧
      GetState (handle p fs e).1 w = GetState p w ∧
      GetContext (handle p fs e).1 w = GetContext p w ∧
      GetDataString (handle p fs e).1 w = GetDataString p w) ∧
    ∀ (q : PersistenceHandler) (gs : FileSystem),
      q.Store.State.lookup e.user = p.Store.State.lookup e.user →
      q.Store.Ctx.lookup e.user = p.Store.Ctx.lookup e.user →
      q.Store.Data.lookup e.user = p.Store.Data.lookup e.user →
      (handle q gs e).2.2 = (handle p fs e).2.2 := by
  have f := handle_frame p fs e w (Ne.symm hw)
  refine ⟨⟨f.1, f.2.1, f.2.2, ?_, ?_, ?_⟩, fun q gs hS hC hD => handle_reply_local p q fs gs e hS hC hD⟩
  · simp only [GetState, f.1]
  · simp only [GetContext, f.2.1]
  · simp only [GetDataString, f.2.2]

/-- Witness of C20: a second user presses the button Name while the first user has a
record; the record of the first user stays, and the reply to the second user is the one
given in the empty store. -/
theorem cross_user_isolation_witness :
    (Event.text otherUser "Name").user ≠ sampleUser ∧
    (handle sampleHandler sampleFiles (Event.text otherUser "Name")).1.Store.Data.lookup
        sampleUser = some { Name := "Ivan", Age := "30", Bio := "", Children := "" } ∧
    (handle emptyHandler sampleFiles (Event.text otherUser "Name")).2.2
      = (handle sampleHandler sampleFiles (Event.text otherUser "Name")).2.2 :=
  ⟨by decide,
   (cross_user_isolation sampleHandler sampleFiles (Event.text otherUser "Name") sampleUser
      (by decide)).1.2.2.1.trans (by decide),
   (cross_user_isolation sampleHandler sampleFiles (Event.text otherUser "Name") sampleUser
      (by decide)).2 emptyHandler sampleFiles (by decide) (by decide) (by decide)⟩

end TGBot
